import Mathlib

set_option maxRecDepth 100000

/-!
Shallow embedding of the cart/checkout subsystem of the e-commerce backend
(src/app/models/{product,cart,discount,order}.py, src/app/services/cart_service.py,
src/app/api/v1/{orders,admin}.py).

Conventions of the embedding:
* `Decimal` money values become `ℚ`; database integer columns become `ℤ` where
  subtraction matters (variant stock) and `ℕ` where the HTTP layer enforces
  non-negative values (quantities: the marshmallow/restx schemas reject
  negative quantities at the API edge).
* Surrogate UUID keys become `ℕ` ids drawn from counters in the `DB` state.
* Wall-clock `datetime.utcnow()` becomes an explicit `now : ℤ` parameter.
* Python truthiness of nullable columns is embedded explicitly: a value such
  as `minimum_amount` tests true exactly when it is non-NULL and non-zero,
  which is `Option ℚ` being `some m` with `m ≠ 0`.
* Error dictionaries (`{'success': False, 'error': ...}`) become `Except`
  values over inductive error types; each constructor corresponds to one
  distinct error string of the source (messages' interpolated values are
  carried as constructor arguments).
* The `Product` row joined through `variant.product` is flattened into the
  two snapshot fields `product_name`/`product_sku` on the variant, which is
  all the checkout code reads from it.
-/

namespace ECommerce

/-- Equality of `Except` results is decidable componentwise (the core library
provides no instance; concrete service outcomes are checked with it). -/
instance {ε α : Type} [DecidableEq ε] [DecidableEq α] : DecidableEq (Except ε α) :=
  fun x y =>
    match x, y with
    | .ok a, .ok b =>
        if h : a = b then isTrue (by rw [h])
        else isFalse (fun hh => h (Except.ok.inj hh))
    | .ok _, .error _ => isFalse (fun hh => Except.noConfusion hh)
    | .error _, .ok _ => isFalse (fun hh => Except.noConfusion hh)
    | .error a, .error b =>
        if h : a = b then isTrue (by rw [h])
        else isFalse (fun hh => h (Except.error.inj hh))

/-! ## Inventory: `ProductVariant` (src/app/models/product.py) -/

/-- A product variant row.  `stock` is the on-hand count (INTEGER column with
CHECK `stock >= 0` named `check_non_negative_stock`); `price` has CHECK
`price >= 0`. -/
structure ProductVariant where
  vid : ℕ
  name : String
  sku : String
  product_name : String
  product_sku : String
  price : ℚ
  stock : ℤ
  low_stock_threshold : ℤ
  is_active : Bool
deriving DecidableEq

/-- `ProductVariant.is_low_stock`: `self.stock <= self.low_stock_threshold`. -/
def ProductVariant.is_low_stock (v : ProductVariant) : Bool :=
  v.stock ≤ v.low_stock_threshold

/-- `ProductVariant.is_in_stock`: `self.stock > 0`. -/
def ProductVariant.is_in_stock (v : ProductVariant) : Bool :=
  0 < v.stock

/-- `ProductVariant.reserve_stock(quantity)`: if `stock >= quantity`,
decrement and return True, else return False without side effect. -/
def ProductVariant.reserve_stock (v : ProductVariant) (quantity : ℤ) :
    ProductVariant × Bool :=
  if quantity ≤ v.stock then ({ v with stock := v.stock - quantity }, true)
  else (v, false)

/-- `ProductVariant.release_stock(quantity)`: `self.stock += quantity`. -/
def ProductVariant.release_stock (v : ProductVariant) (quantity : ℤ) :
    ProductVariant :=
  { v with stock := v.stock + quantity }

/-- A reserve or release call against one variant's stock, as issued by
checkout, cancellation and refund (which always pass the positive
`quantity` column of an order item). -/
inductive StockOp where
  | reserve (quantity : ℤ)
  | release (quantity : ℤ)
deriving DecidableEq

/-- The quantity argument carried by a stock operation. -/
def StockOp.qty : StockOp → ℤ
  | .reserve q => q
  | .release q => q

/-- Run one stock operation against a variant (`reserve_stock` discarding the
Bool result, `release_stock`). -/
def ProductVariant.apply_stock_op (v : ProductVariant) : StockOp → ProductVariant
  | .reserve q => (v.reserve_stock q).1
  | .release q => v.release_stock q

/-- Run a sequence of reserve/release operations left to right. -/
def ProductVariant.run_stock_ops (v : ProductVariant) (ops : List StockOp) :
    ProductVariant :=
  ops.foldl ProductVariant.apply_stock_op v

/-! ## Coupons (src/app/models/discount.py) -/

/-- `DiscountType` enumeration. -/
inductive DiscountType where
  | percentage
  | fixed
  | free_shipping
  | buy_x_get_y
deriving DecidableEq

/-- One error string accumulated by `Coupon.is_valid`; the interpolated
minimum amount is carried as an argument. -/
inductive CouponError where
  | notActive
  | notYetValid
  | expired
  | usageLimitExceeded
  | minimumAmount (amount : ℚ)
  | perUserLimit
deriving DecidableEq

/-- The `{'valid': ..., 'errors': [...]}` dictionary `Coupon.is_valid`
returns. -/
structure CouponValidation where
  valid : Bool
  errors : List CouponError
deriving DecidableEq

/-- A coupon row.  Nullable columns are `Option`; `usage_limit_per_user` has
a NOT NULL default of 1. -/
structure Coupon where
  code : String
  discount_type : DiscountType
  discount_value : ℚ
  minimum_amount : Option ℚ
  maximum_discount : Option ℚ
  usage_limit : Option ℕ
  usage_limit_per_user : ℕ
  usage_count : ℕ
  valid_from : Option ℤ
  valid_until : Option ℤ
  is_active : Bool
deriving DecidableEq

/-- `Coupon.is_valid(cart_total, user_id)`.  `now` is `datetime.utcnow()`;
`usages` is the coupon's `usages` relationship (the `user_id` column of each
`CouponUsage` row, nullable).  Python truthiness is embedded literally: the
guard `if self.minimum_amount and cart_total and cart_total < ...` only
fires when both `minimum_amount` and `cart_total` are non-None and non-zero,
and `if self.usage_limit ...` / `if user_id and self.usage_limit_per_user`
likewise skip when the limit is 0 (a UUID `user_id` is always truthy). -/
def Coupon.is_valid (c : Coupon) (cart_total : Option ℚ) (user_id : Option ℕ)
    (now : ℤ) (usages : List (Option ℕ)) : CouponValidation :=
  let e1 := if c.is_active then [] else [CouponError.notActive]
  let e2 := match c.valid_from with
    | some vf => if now < vf then [CouponError.notYetValid] else []
    | none => []
  let e3 := match c.valid_until with
    | some vu => if vu < now then [CouponError.expired] else []
    | none => []
  let e4 := match c.usage_limit with
    | some l => if l ≠ 0 ∧ l ≤ c.usage_count then [CouponError.usageLimitExceeded] else []
    | none => []
  let e5 := match c.minimum_amount, cart_total with
    | some m, some t =>
        if m ≠ 0 ∧ t ≠ 0 ∧ t < m then [CouponError.minimumAmount m] else []
    | _, _ => []
  let e6 := match user_id with
    | some u =>
        if c.usage_limit_per_user ≠ 0 ∧
            c.usage_limit_per_user ≤ (usages.filter (· = some u)).length then
          [CouponError.perUserLimit]
        else []
    | none => []
  let errors := e1 ++ e2 ++ e3 ++ e4 ++ e5 ++ e6
  { valid := errors.isEmpty, errors := errors }

/-- `Coupon.calculate_discount(cart_total)`: percentage/fixed base value,
then the `maximum_discount` cap (skipped when the column is NULL or 0, by
truthiness), then the cap at `cart_total`. -/
def Coupon.calculate_discount (c : Coupon) (cart_total : ℚ) : ℚ :=
  let base : ℚ :=
    match c.discount_type with
    | .percentage => cart_total * (c.discount_value / 100)
    | .fixed => c.discount_value
    | .free_shipping => 0
    | .buy_x_get_y => 0
  let capped : ℚ :=
    match c.maximum_discount with
    | some m => if m ≠ 0 ∧ m < base then m else base
    | none => base
  if cart_total < capped then cart_total else capped

/-- Cap a base discount at `maximum_discount` as the spec phrases it:
"capped at `maximum_discount` if set".  Used to state claim C7. -/
def cap_at_maximum (maximum : Option ℚ) (d : ℚ) : ℚ :=
  match maximum with
  | some m => min d m
  | none => d

/-- Cap a base discount at `maximum_discount` as the code applies it: the
truthiness guard `if self.maximum_discount and discount > ...` skips the cap
when the column is NULL or zero. -/
def cap_at_maximum_set (maximum : Option ℚ) (d : ℚ) : ℚ :=
  match maximum with
  | some m => if m = 0 then d else min d m
  | none => d

/-! ## Cart (src/app/models/cart.py) -/

/-- `CartStatus` enumeration. -/
inductive CartStatus where
  | active
  | abandoned
  | converted
  | expired
deriving DecidableEq

/-- A `cart_items` row.  `item_id` is the row's surrogate key (the cart API
updates and removes items by this id); `price` is the snapshot price at time
of adding. -/
structure CartItem where
  item_id : ℕ
  variant_id : ℕ
  quantity : ℕ
  price : ℚ
deriving DecidableEq

/-- `CartItem.get_total`: `self.price * self.quantity`. -/
def CartItem.get_total (i : CartItem) : ℚ :=
  i.price * (i.quantity : ℚ)

/-- The applied-coupon state the service tries to keep on the cart
(`coupon_code` and computed `discount_amount`).  The `Cart` ORM model has no
`metadata` column — `cart.metadata` resolves to SQLAlchemy's declarative
`MetaData` registry — so the running code can never populate this field; it
is kept in the embedding to state the claims that mention an applied
coupon. -/
structure AppliedCoupon where
  coupon_code : String
  discount_amount : ℚ
deriving DecidableEq

/-- A `carts` row with its items.  `owner` is the `user_id` column (the
anonymous `session_id` flow is structurally identical and not modelled
separately; every claim quantifies over user-owned carts). -/
structure Cart where
  cid : ℕ
  owner : ℕ
  status : CartStatus
  items : List CartItem
  meta : Option AppliedCoupon
deriving DecidableEq

/-- `Cart.get_item_by_variant(variant_id)`. -/
def Cart.get_item_by_variant (c : Cart) (variant_id : ℕ) : Option CartItem :=
  c.items.find? (fun i => i.variant_id = variant_id)

/-- `Cart.add_item(variant, quantity)` (model method): increment the existing
line for the variant or append a new line with the variant's current price.
No status check is performed.  The fresh row id is immaterial to every claim;
`c.items.length` stands in for the database-assigned key. -/
def Cart.add_item (c : Cart) (v : ProductVariant) (quantity : ℕ) : Cart :=
  match c.get_item_by_variant v.vid with
  | some _ =>
      { c with items := c.items.map (fun i =>
          if i.variant_id = v.vid then { i with quantity := i.quantity + quantity } else i) }
  | none =>
      { c with items := c.items ++
          [{ item_id := c.items.length, variant_id := v.vid, quantity := quantity,
             price := v.price }] }

/-- `Cart.remove_item(variant_id)` (model method): drop the line for the
variant if present.  No status check is performed. -/
def Cart.remove_item (c : Cart) (variant_id : ℕ) : Cart :=
  { c with items := c.items.filter (fun i => ¬ i.variant_id = variant_id) }

/-- `Cart.update_item_quantity(variant_id, quantity)` (model method):
`quantity <= 0` removes the line, else sets it.  No status check is
performed. -/
def Cart.update_item_quantity (c : Cart) (variant_id : ℕ) (quantity : ℕ) : Cart :=
  if quantity = 0 then c.remove_item variant_id
  else
    { c with items := c.items.map (fun i =>
        if i.variant_id = variant_id then { i with quantity := quantity } else i) }

/-- `Cart.clear()` (model method): remove every item.  No status check. -/
def Cart.clear (c : Cart) : Cart :=
  { c with items := [] }

/-- `Cart.get_subtotal()`: sum of `item.get_total()` over the items. -/
def Cart.get_subtotal (c : Cart) : ℚ :=
  (c.items.map CartItem.get_total).sum

/-- `Cart.get_total_quantity()`. -/
def Cart.get_total_quantity (c : Cart) : ℕ :=
  (c.items.map CartItem.quantity).sum

/-- `Cart.is_empty()`. -/
def Cart.is_empty (c : Cart) : Bool :=
  c.items.length = 0

/-- One error string collected by `Cart.validate_items`; interpolated values
(variant name, live stock, requested quantity) are constructor arguments. -/
inductive ValidationError where
  | noLongerAvailable (name : String)
  | outOfStock (name : String)
  | insufficientStock (available : ℤ) (name : String) (requested : ℕ)
deriving DecidableEq

/-- `Cart.validate_items` on one item against the variants table: the three
checks in source order (`continue` short-circuits the later ones per item),
and on a fully passing item the price snapshot re-sync `item.price =
item.variant.price`.  `none` is the `item.variant` relationship failing to
load (an unhandled `AttributeError` in the source). -/
def validate_item (variants : List ProductVariant) (i : CartItem) :
    Option (List ValidationError × CartItem) :=
  match variants.find? (fun v => v.vid = i.variant_id) with
  | none => none
  | some v =>
      if ¬ v.is_active then some ([.noLongerAvailable v.name], i)
      else if ¬ v.is_in_stock then some ([.outOfStock v.name], i)
      else if v.stock < (i.quantity : ℤ) then
        some ([.insufficientStock v.stock v.name i.quantity], i)
      else some ([], { i with price := v.price })

/-- `Cart.validate_items()` over the item list: accumulated errors (one per
failing line, not fail-fast) and the re-synced item list.  The source's
`updated_items` bookkeeping only drives warnings and an extra commit; the
resulting cart state is the re-synced list either way. -/
def validate_items (variants : List ProductVariant) :
    List CartItem → Option (List ValidationError × List CartItem)
  | [] => some ([], [])
  | i :: rest => do
      let (e, i') ← validate_item variants i
      let (es, rest') ← validate_items variants rest
      pure (e ++ es, i' :: rest')

/-! ## Orders (src/app/models/order.py) -/

/-- `OrderStatus` enumeration. -/
inductive OrderStatus where
  | pending
  | confirmed
  | processing
  | shipped
  | delivered
  | cancelled
  | refunded
  | partially_refunded
deriving DecidableEq

/-- `PaymentStatus` enumeration. -/
inductive PaymentStatus where
  | pending
  | authorized
  | captured
  | failed
  | refunded
  | partially_refunded
deriving DecidableEq

/-- An `order_items` row: the point-in-time snapshot checkout writes. -/
structure OrderItem where
  variant_id : ℕ
  quantity : ℕ
  price : ℚ
  total : ℚ
  product_name : String
  product_sku : String
  variant_name : String
  variant_sku : String
deriving DecidableEq

/-- An `orders` row.  The shipping/billing address snapshots are represented
by the id of the address row whose fields were copied (no claim inspects the
copied text fields).  The table carries CHECK `total >= 0` named
`check_positive_total`. -/
structure Order where
  oid : ℕ
  user_id : ℕ
  status : OrderStatus
  payment_status : PaymentStatus
  subtotal : ℚ
  tax_amount : ℚ
  shipping_amount : ℚ
  discount_amount : ℚ
  total : ℚ
  shipping_address : ℕ
  billing_address : ℕ
  payment_method : String
  items : List OrderItem
  shipped_at : Option ℤ
  delivered_at : Option ℤ
deriving DecidableEq

/-- `Order.can_be_cancelled()`: status in {pending, confirmed}. -/
def Order.can_be_cancelled (o : Order) : Bool :=
  o.status = .pending ∨ o.status = .confirmed

/-- `Order.can_be_refunded()`: status in {delivered, shipped} and
payment_status captured. -/
def Order.can_be_refunded (o : Order) : Bool :=
  (o.status = .delivered ∨ o.status = .shipped) ∧ o.payment_status = .captured

/-! ## Service state (`DB`): the rows the cart/checkout subsystem touches -/

/-- An `addresses` row (only ownership is consulted by checkout). -/
structure Address where
  aid : ℕ
  user_id : ℕ
deriving DecidableEq

/-- The transactional store.  `next_cart_id`/`next_item_id` model the
database's surrogate-key allocation. -/
structure DB where
  variants : List ProductVariant
  carts : List Cart
  orders : List Order
  addresses : List Address
  coupons : List Coupon
  next_cart_id : ℕ
  next_item_id : ℕ
deriving DecidableEq

/-- Replace the cart row with `c.cid` (an ORM attribute write plus commit). -/
def replace_cart (db : DB) (c : Cart) : DB :=
  { db with carts := db.carts.map (fun x => if x.cid = c.cid then c else x) }

/-- The active-cart lookup of `CartService.get_or_create_cart`:
`find_one_by({'user_id': user_id, 'status': 'active'})`. -/
def find_active_cart (db : DB) (user_id : ℕ) : Option Cart :=
  db.carts.find? (fun c => c.owner = user_id ∧ c.status = CartStatus.active)

/-- `CartService.get_or_create_cart(user_id)`: return the user's active cart,
or create-and-commit a fresh empty active one.  A `converted`/`expired` cart
is never returned: the lookup filters on status. -/
def get_or_create_cart (db : DB) (user_id : ℕ) : Cart × DB :=
  match find_active_cart db user_id with
  | some c => (c, db)
  | none =>
      let c : Cart :=
        { cid := db.next_cart_id, owner := user_id, status := .active,
          items := [], meta := none }
      (c, { db with carts := db.carts ++ [c], next_cart_id := db.next_cart_id + 1 })

/-- One error outcome of a `CartService` operation (each constructor is one
distinct `{'success': False, 'error': ...}` string of the source). -/
inductive CartServiceError where
  | variantUnavailable
  | insufficientStock (available : ℤ)
  | itemNotFound
  | updateFailed
  | invalidCoupon
  | couponNotValid (errors : List CouponError)
  | applyCouponFailed
  | removeCouponFailed
deriving DecidableEq

/-- `CartService.add_to_cart(user_id, variant_id, quantity)`:
variant existence/active check, stock availability check, then increment the
existing line (re-checking stock against the summed quantity) or create a
new line; price snapshots are refreshed to the current variant price. -/
def add_to_cart (db : DB) (user_id : ℕ) (variant_id : ℕ) (quantity : ℕ) :
    Except CartServiceError Unit × DB :=
  match db.variants.find? (fun v => v.vid = variant_id) with
  | none => (.error .variantUnavailable, db)
  | some v =>
      if ¬ v.is_active then (.error .variantUnavailable, db)
      else if ¬ v.is_in_stock ∨ v.stock < (quantity : ℤ) then
        (.error (.insufficientStock v.stock), db)
      else
        match (get_or_create_cart db user_id).1.get_item_by_variant variant_id with
        | some item =>
            if v.stock < ((item.quantity + quantity : ℕ) : ℤ) then
              (.error (.insufficientStock v.stock), (get_or_create_cart db user_id).2)
            else
              (.ok (), replace_cart (get_or_create_cart db user_id).2
                { (get_or_create_cart db user_id).1 with
                  items := (get_or_create_cart db user_id).1.items.map (fun i =>
                    if i.variant_id = variant_id then
                      { i with quantity := item.quantity + quantity, price := v.price }
                    else i) })
        | none =>
            (.ok (), { replace_cart (get_or_create_cart db user_id).2
              { (get_or_create_cart db user_id).1 with
                items := (get_or_create_cart db user_id).1.items ++
                  [{ item_id := (get_or_create_cart db user_id).2.next_item_id,
                     variant_id := variant_id, quantity := quantity, price := v.price }] }
              with next_item_id := (get_or_create_cart db user_id).2.next_item_id + 1 })

/-- `CartService.update_cart_item(user_id, item_id, quantity)`: quantity 0
deletes the row; otherwise a stock check then the quantity update with a
price re-sync.  `updateFailed` is the catch-all rollback path (the
`item.variant` relationship failing to load). -/
def update_cart_item (db : DB) (user_id : ℕ) (item_id : ℕ) (quantity : ℕ) :
    Except CartServiceError Unit × DB :=
  match (get_or_create_cart db user_id).1.items.find? (fun i => i.item_id = item_id) with
  | none => (.error .itemNotFound, (get_or_create_cart db user_id).2)
  | some item =>
      if quantity = 0 then
        (.ok (), replace_cart (get_or_create_cart db user_id).2
          { (get_or_create_cart db user_id).1 with
            items := (get_or_create_cart db user_id).1.items.filter
              (fun i => ¬ i.item_id = item_id) })
      else
        match (get_or_create_cart db user_id).2.variants.find?
            (fun v => v.vid = item.variant_id) with
        | none => (.error .updateFailed, (get_or_create_cart db user_id).2)
        | some v =>
            if v.stock < (quantity : ℤ) then
              (.error (.insufficientStock v.stock), (get_or_create_cart db user_id).2)
            else
              (.ok (), replace_cart (get_or_create_cart db user_id).2
                { (get_or_create_cart db user_id).1 with
                  items := (get_or_create_cart db user_id).1.items.map (fun i =>
                    if i.item_id = item_id then
                      { i with quantity := quantity, price := v.price }
                    else i) })

/-- `CartService.remove_from_cart(user_id, item_id)` delegates to
`update_cart_item` with quantity 0. -/
def remove_from_cart (db : DB) (user_id : ℕ) (item_id : ℕ) :
    Except CartServiceError Unit × DB :=
  update_cart_item db user_id item_id 0

/-- `CartService.clear_cart(user_id)`: delete every item row of the user's
active cart. -/
def clear_cart (db : DB) (user_id : ℕ) : Except CartServiceError Unit × DB :=
  (.ok (), replace_cart (get_or_create_cart db user_id).2
    { (get_or_create_cart db user_id).1 with items := [] })

/-- `CartService.apply_coupon(user_id, coupon_code)`: find the coupon by
upper-cased code, validate it against the current subtotal and user, compute
the discount — and then attempt `cart.metadata.update({...})`.  `Cart` has no
`metadata` column, so `cart.metadata` is SQLAlchemy's declarative `MetaData`
registry (truthy, not None, and without an `update` method): the call raises
`AttributeError`, the `except` clause rolls back, and the service returns
`{'success': False, 'error': 'Failed to apply coupon'}`.  Nothing is ever
stored on the cart. -/
def apply_coupon (db : DB) (user_id : ℕ) (coupon_code : String) (now : ℤ)
    (usages : List (Option ℕ)) : Except CartServiceError Unit × DB :=
  match (get_or_create_cart db user_id).2.coupons.find?
      (fun c => c.code = coupon_code.toUpper) with
  | none => (.error .invalidCoupon, (get_or_create_cart db user_id).2)
  | some coupon =>
      if ¬ (coupon.is_valid (some (get_or_create_cart db user_id).1.get_subtotal)
            (some user_id) now usages).valid then
        (.error (.couponNotValid (coupon.is_valid
            (some (get_or_create_cart db user_id).1.get_subtotal)
            (some user_id) now usages).errors), (get_or_create_cart db user_id).2)
      else (.error .applyCouponFailed, (get_or_create_cart db user_id).2)

/-- `CartService.remove_coupon(user_id)`: `cart.metadata` is truthy (the
`MetaData` registry), so the source reaches `cart.metadata.pop(...)`, raises
`AttributeError`, rolls back and returns
`{'success': False, 'error': 'Failed to remove coupon'}`. -/
def remove_coupon (db : DB) (user_id : ℕ) : Except CartServiceError Unit × DB :=
  (.error .removeCouponFailed, (get_or_create_cart db user_id).2)

/-! ## Totals (`CartService.calculate_totals` / `_calculate_shipping`) -/

/-- The `totals` dictionary of `CartService.calculate_totals`. -/
structure Totals where
  subtotal : ℚ
  tax : ℚ
  shipping : ℚ
  discount : ℚ
  total : ℚ
  items_count : ℕ
deriving DecidableEq

/-- `CartService._calculate_shipping(cart, shipping_address_id)`: free at or
above a subtotal of 50.00, else the flat 9.99 standard rate.  The
`shipping_address_id` parameter is unused by the source and elided; no
coupon is consulted. -/
def calc_shipping (cart : Cart) : ℚ :=
  if 50 ≤ cart.get_subtotal then 0 else 999 / 100

/-- The body of `CartService.calculate_totals` on the fetched cart.  The
discount read `'discount_amount' in cart.metadata` is a key-membership test
on SQLAlchemy's `MetaData` table registry, which never contains that key, so
the discount is always `Decimal('0.00')` whatever coupon state the cart
carries.  Tax is the flat 8% of `(subtotal - discount)`. -/
def calc_totals_cart (cart : Cart) : Totals :=
  if cart.is_empty then
    { subtotal := 0, tax := 0, shipping := 0, discount := 0, total := 0,
      items_count := 0 }
  else
    let subtotal := cart.get_subtotal
    let discount : ℚ := 0
    let tax := (subtotal - discount) * (8 / 100)
    let shipping := calc_shipping cart
    let total := subtotal + tax + shipping - discount
    { subtotal := subtotal, tax := tax, shipping := shipping,
      discount := discount, total := total,
      items_count := cart.get_total_quantity }

/-- `CartService.calculate_totals(user_id, shipping_address_id)`: fetch the
active cart and compute. -/
def calculate_totals (db : DB) (user_id : ℕ) : Totals × DB :=
  (calc_totals_cart (get_or_create_cart db user_id).1, (get_or_create_cart db user_id).2)

/-! ## Checkout (src/app/api/v1/orders.py, `OrderList.post`) -/

/-- One failure outcome of the checkout endpoint.  The first five
constructors are the source's error strings ('Cart is empty', 'Cart
validation failed', 'Invalid address', 'Failed to create order', 'Failed to
process checkout').  The last two constructors are vocabulary from the spec
only — modelled from the spec: `InsufficientStock` naming the failing item
(§4.5 step 3) and `CartLockedError` (§4.4); the code never produces either,
and they exist so the claims that mention them can be stated. -/
inductive CheckoutError where
  | emptyCart
  | validationFailed (errors : List ValidationError)
  | invalidAddress
  | createFailed
  | checkoutFailed
  | insufficientStock (variant_name : String)
  | cartLocked
deriving DecidableEq

/-- Whether a checkout outcome surfaces the spec's `InsufficientStock` naming
some failing item.  Modelled from the spec: used to state claim C1 against
the code's actual error. -/
def surfaces_insufficient_stock (r : Except CheckoutError Order) : Bool :=
  match r with
  | .error (.insufficientStock _) => true
  | _ => false

/-- The order-item creation loop's snapshot of one cart item
(`OrderItem(...)` fields in `OrderList.post`).  `none` when the variant row
backing the cart item is missing (the `cart_item.variant` attribute chain
raising inside the transaction's `try`). -/
def build_order_items (variants : List ProductVariant) :
    List CartItem → Option (List OrderItem)
  | [] => some []
  | i :: rest => do
      let v ← variants.find? (fun v => v.vid = i.variant_id)
      let tail ← build_order_items variants rest
      pure ({ variant_id := i.variant_id, quantity := i.quantity, price := i.price,
              total := i.price * (i.quantity : ℚ), product_name := v.product_name,
              product_sku := v.product_sku, variant_name := v.name,
              variant_sku := v.sku } :: tail)

/-- One pass of the checkout loop's unconditional stock write
`cart_item.variant.stock -= cart_item.quantity` (no `reserve_stock` call, no
`stock >= quantity` guard). -/
def reserve_item (variants : List ProductVariant) (i : CartItem) :
    List ProductVariant :=
  variants.map (fun v =>
    if v.vid = i.variant_id then { v with stock := v.stock - (i.quantity : ℤ) } else v)

/-- The whole checkout loop's stock writes. -/
def reserve_items (variants : List ProductVariant) (items : List CartItem) :
    List ProductVariant :=
  items.foldl reserve_item variants

/-- The `try`-block transaction of `OrderList.post`, as a function of the
database state at transaction start: compute totals, build the order row and
its item snapshots, decrement each item's variant stock unconditionally,
mark the cart converted, advance payment for immediately-capturable methods,
then commit.  The commit enforces the table CHECK constraints
(`check_non_negative_stock`, `check_positive_total`); a violation — or a
missing variant in the loop — raises, the `except` clause calls
`db.session.rollback()`, and the endpoint returns the generic
`{'error': 'Failed to create order'}` with the state unchanged. -/
def checkout_transaction (db : DB) (cart : Cart) (ship bill : ℕ)
    (payment_method : String) : Except CheckoutError Order × DB :=
  let t := calc_totals_cart cart
  match build_order_items db.variants cart.items with
  | none => (.error .createFailed, db)
  | some oitems =>
      let vs := reserve_items db.variants cart.items
      let captured := payment_method = "credit_card" ∨ payment_method = "paypal"
      let order : Order :=
        { oid := db.orders.length, user_id := cart.owner,
          status := if captured then .confirmed else .pending,
          payment_status := if captured then .captured else .pending,
          subtotal := t.subtotal, tax_amount := t.tax, shipping_amount := t.shipping,
          discount_amount := t.discount, total := t.total,
          shipping_address := ship, billing_address := bill,
          payment_method := payment_method, items := oitems,
          shipped_at := none, delivered_at := none }
      if (∀ v ∈ vs, 0 ≤ v.stock) ∧ 0 ≤ t.total then
        (.ok order,
          replace_cart { db with variants := vs, orders := db.orders ++ [order] }
            { cart with status := .converted })
      else (.error .createFailed, db)

/-- The checkout endpoint `OrderList.post` for an authenticated user: fetch
the active cart (creating one if none), reject an empty cart, validate the
items (committing the price re-syncs), resolve both addresses against the
user, then run the order transaction. -/
def checkout (db : DB) (user_id : ℕ) (ship bill : ℕ) (payment_method : String) :
    Except CheckoutError Order × DB :=
  let cart := (get_or_create_cart db user_id).1
  let db1 := (get_or_create_cart db user_id).2
  if cart.is_empty then (.error .emptyCart, db1)
  else
    match validate_items db1.variants cart.items with
    | none => (.error .checkoutFailed, db1)
    | some (errors, synced) =>
        let cart2 := { cart with items := synced }
        let db2 := replace_cart db1 cart2
        if ¬ errors.isEmpty then (.error (.validationFailed errors), db2)
        else if ¬ ((db2.addresses.any (fun a => a.aid = ship ∧ a.user_id = user_id)) ∧
                   (db2.addresses.any (fun a => a.aid = bill ∧ a.user_id = user_id))) then
          (.error .invalidAddress, db2)
        else checkout_transaction db2 cart2 ship bill payment_method

/-! ## Order status changes (src/app/api/v1/orders.py `CancelOrder`,
src/app/api/v1/admin.py `AdminOrder.put` and `AdminOrderRefund`) -/

/-- A rejected order-status request (the source's 400 error strings;
`invalidTransition` is vocabulary from the spec only — modelled from the
spec's `InvalidTransitionError`, which the code never produces — so the
claims that mention it can be stated). -/
inductive OrderUpdateError where
  | cannotCancel
  | cannotRefund
  | invalidStatus
  | invalidTransition
deriving DecidableEq

/-- The stock restoration `item.variant.stock += item.quantity` for one order
item (a no-op when the variant row is gone, per `if item.variant:`). -/
def release_order_item (variants : List ProductVariant) (i : OrderItem) :
    List ProductVariant :=
  variants.map (fun v =>
    if v.vid = i.variant_id then { v with stock := v.stock + (i.quantity : ℤ) } else v)

/-- `for item in order.items: ... stock += quantity` over the whole order. -/
def restore_stock (variants : List ProductVariant) (items : List OrderItem) :
    List ProductVariant :=
  items.foldl release_order_item variants

/-- The customer cancellation endpoint (`CancelOrder.post`): guard
`can_be_cancelled`, set status `cancelled`, restore stock for every item. -/
def cancel_order (o : Order) (variants : List ProductVariant) :
    Except OrderUpdateError (Order × List ProductVariant) :=
  if ¬ o.can_be_cancelled then .error .cannotCancel
  else .ok ({ o with status := .cancelled }, restore_stock variants o.items)

/-- The admin refund endpoint (`AdminOrderRefund.post`): guard
`can_be_refunded`, set both statuses to refunded, restore stock for every
item. -/
def admin_refund_order (o : Order) (variants : List ProductVariant) :
    Except OrderUpdateError (Order × List ProductVariant) :=
  if ¬ o.can_be_refunded then .error .cannotRefund
  else .ok ({ o with status := .refunded, payment_status := .refunded },
            restore_stock variants o.items)

/-- `AdminOrder.put`'s `valid_statuses` whitelist (every status except
`partially_refunded`). -/
def admin_valid_statuses : List OrderStatus :=
  [.pending, .confirmed, .processing, .shipped, .delivered, .cancelled, .refunded]

/-- The admin status update (`AdminOrder.put` with a `status` key): reject a
status outside the whitelist, otherwise set it whatever the current status
is — there is no transition check — then run the status-specific side
effects (timestamps on first entry to shipped/delivered, stock restoration
on cancelled).  Tracking-number updates are elided (no claim touches
them). -/
def admin_update_order_status (o : Order) (variants : List ProductVariant)
    (new_status : OrderStatus) (now : ℤ) :
    Except OrderUpdateError (Order × List ProductVariant) :=
  if new_status ∉ admin_valid_statuses then .error .invalidStatus
  else
    let o1 := { o with status := new_status }
    if new_status = .shipped ∧ ¬ o.status = .shipped then
      .ok ({ o1 with shipped_at := some now }, variants)
    else if new_status = .delivered ∧ ¬ o.status = .delivered then
      .ok ({ o1 with delivered_at := some now }, variants)
    else if new_status = .cancelled then
      .ok (o1, restore_stock variants o.items)
    else .ok (o1, variants)

/-- The restricted transition relation the spec states for orders after
creation (§4.5): modelled from the spec, to compare with what the endpoints
accept.  `payment` is the order's payment status at the time of request. -/
def spec_allowed_transition (src dst : OrderStatus) (payment : PaymentStatus) :
    Bool :=
  match src, dst with
  | .pending, .cancelled => true
  | .confirmed, .cancelled => true
  | .confirmed, .shipped => true
  | .processing, .shipped => true
  | .shipped, .delivered => true
  | .delivered, .refunded => payment = .captured
  | .shipped, .refunded => payment = .captured
  | _, _ => false

/-- The shipping figure the spec describes (claim C9): the step function of
the subtotal, except forced to zero when a free-shipping coupon is applied.
Modelled from the spec's words, to compare with `calc_shipping`. -/
def spec_shipping (subtotal : ℚ) (free_shipping_applied : Bool) : ℚ :=
  if free_shipping_applied then 0
  else if 50 ≤ subtotal then 0 else 999 / 100

/-- Total on-hand stock across a variant list (to state inventory
restoration). -/
def sum_stocks (variants : List ProductVariant) : ℤ :=
  (variants.map ProductVariant.stock).sum

/-- The total quantity that cancelling/refunding an order's items releases:
each item whose variant row still exists contributes its quantity. -/
def released_total (variants : List ProductVariant) (items : List OrderItem) : ℤ :=
  (items.map (fun i =>
    if variants.any (fun v => v.vid = i.variant_id) then (i.quantity : ℤ) else 0)).sum

/-! ## Concrete rows used by counterexamples and witnesses -/

/-- A stocked, active variant. -/
def widget : ProductVariant :=
  { vid := 1, name := "Widget", sku := "WID-1", product_name := "Widget",
    product_sku := "WID", price := 10, stock := 5, low_stock_threshold := 2,
    is_active := true }

/-- The same variant after a competing checkout drained its stock to 2. -/
def drainedWidget : ProductVariant :=
  { widget with stock := 2 }

/-- An active cart holding 3 Widgets: its validation passed while stock was
still 5, but by transaction start only 2 remain. -/
def staleCart : Cart :=
  { cid := 0, owner := 1, status := .active,
    items := [{ item_id := 0, variant_id := 1, quantity := 3, price := 10 }],
    meta := none }

/-- The state a competing checkout leaves at transaction start of the claim
C1 scenario. -/
def staleDB : DB :=
  { variants := [drainedWidget], carts := [staleCart], orders := [],
    addresses := [{ aid := 10, user_id := 1 }, { aid := 11, user_id := 1 }],
    coupons := [], next_cart_id := 1, next_item_id := 1 }

/-- An active one-line cart (1 Widget at 10.00) for user 1. -/
def happyCart : Cart :=
  { cid := 0, owner := 1, status := .active,
    items := [{ item_id := 0, variant_id := 1, quantity := 1, price := 10 }],
    meta := none }

/-- A state in which user 1's checkout succeeds. -/
def happyDB : DB :=
  { variants := [widget], carts := [happyCart], orders := [],
    addresses := [{ aid := 10, user_id := 1 }, { aid := 11, user_id := 1 }],
    coupons := [], next_cart_id := 1, next_item_id := 1 }

/-- The first checkout call on `happyDB`. -/
def firstCheckout : Except CheckoutError Order × DB :=
  checkout happyDB 1 10 11 "credit_card"

/-- The immediately repeated checkout call on the resulting state. -/
def secondCheckout : Except CheckoutError Order × DB :=
  checkout firstCheckout.2 1 10 11 "credit_card"

/-- A placeholder order row (only used as the default of a safe list
lookup). -/
def dummyOrder : Order :=
  { oid := 0, user_id := 0, status := .pending, payment_status := .pending,
    subtotal := 0, tax_amount := 0, shipping_amount := 0, discount_amount := 0,
    total := 0, shipping_address := 0, billing_address := 0, payment_method := "",
    items := [], shipped_at := none, delivered_at := none }

/-- The order the successful first checkout created. -/
def happyOrder : Order :=
  firstCheckout.2.orders.getD 0 dummyOrder

/-- A cart of user 2 already converted by an earlier checkout. -/
def convertedCart : Cart :=
  { cid := 3, owner := 2, status := .converted,
    items := [{ item_id := 7, variant_id := 1, quantity := 2, price := 10 }],
    meta := none }

/-- A state in which user 2 owns only the converted cart. -/
def convertedDB : DB :=
  { variants := [widget], carts := [convertedCart], orders := [],
    addresses := [], coupons := [], next_cart_id := 4, next_item_id := 8 }

/-- A delivered, captured order for one Widget. -/
def deliveredOrder : Order :=
  { oid := 0, user_id := 1, status := .delivered, payment_status := .captured,
    subtotal := 10, tax_amount := 4 / 5, shipping_amount := 999 / 100,
    discount_amount := 0, total := 2079 / 100, shipping_address := 10,
    billing_address := 11, payment_method := "credit_card",
    items := [{ variant_id := 1, quantity := 1, price := 10, total := 10,
                product_name := "Widget", product_sku := "WID",
                variant_name := "Widget", variant_sku := "WID-1" }],
    shipped_at := none, delivered_at := none }

/-- The same order still pending (cancellable). -/
def pendingOrder : Order :=
  { deliveredOrder with status := .pending, payment_status := .pending }

/-- The variants after the pending order's cancellation restores stock. -/
def restoredVariants : List ProductVariant :=
  restore_stock [widget] pendingOrder.items

/-- The variants after the delivered order's refund restores stock. -/
def refundRestoredVariants : List ProductVariant :=
  restore_stock [widget] deliveredOrder.items

/-- A 50% coupon whose maximum-discount cap is set to zero. -/
def zeroCapCoupon : Coupon :=
  { code := "HALF", discount_type := .percentage, discount_value := 50,
    minimum_amount := none, maximum_discount := some 0, usage_limit := none,
    usage_limit_per_user := 1, usage_count := 0, valid_from := none,
    valid_until := none, is_active := true }

/-- A percentage coupon (10%, minimum 20.00, cap 5.00). -/
def saveCoupon : Coupon :=
  { code := "SAVE10", discount_type := .percentage, discount_value := 10,
    minimum_amount := some 20, maximum_discount := some 5, usage_limit := none,
    usage_limit_per_user := 1, usage_count := 0, valid_from := none,
    valid_until := none, is_active := true }

/-- A fixed coupon with a minimum amount and no other restriction. -/
def minCoupon : Coupon :=
  { code := "SAVE20", discount_type := .fixed, discount_value := 5,
    minimum_amount := some 20, maximum_discount := none, usage_limit := none,
    usage_limit_per_user := 1, usage_count := 0, valid_from := none,
    valid_until := none, is_active := true }

/-- A free-shipping coupon. -/
def freeShipCoupon : Coupon :=
  { code := "FREESHIP", discount_type := .free_shipping, discount_value := 0,
    minimum_amount := none, maximum_discount := none, usage_limit := none,
    usage_limit_per_user := 1, usage_count := 0, valid_from := none,
    valid_until := none, is_active := true }

/-- A below-threshold cart (subtotal 10.00) carrying the free-shipping
coupon's applied-coupon state. -/
def freeShipCart : Cart :=
  { cid := 0, owner := 1, status := .active,
    items := [{ item_id := 0, variant_id := 1, quantity := 1, price := 10 }],
    meta := some { coupon_code := "FREESHIP", discount_amount := 0 } }

/-- A cart with subtotal 100.00 (10 Widgets) for the coupon-application
scenario. -/
def bigCart : Cart :=
  { cid := 0, owner := 1, status := .active,
    items := [{ item_id := 0, variant_id := 1, quantity := 10, price := 10 }],
    meta := none }

/-- A state holding `bigCart` and the SAVE10 coupon. -/
def bigCartDB : DB :=
  { variants := [{ widget with stock := 20 }], carts := [bigCart], orders := [],
    addresses := [], coupons := [saveCoupon], next_cart_id := 1, next_item_id := 1 }

/-! ## Helper lemmas -/

theorem orders_replace_cart (db : DB) (c : Cart) :
    (replace_cart db c).orders = db.orders := rfl

theorem orders_get_or_create (db : DB) (u : ℕ) :
    (get_or_create_cart db u).2.orders = db.orders := by
  unfold get_or_create_cart
  split <;> rfl

theorem mem_carts_get_or_create {db : DB} {c : Cart} (u : ℕ) (h : c ∈ db.carts) :
    c ∈ (get_or_create_cart db u).2.carts := by
  unfold get_or_create_cart
  split
  · exact h
  · exact List.mem_append.mpr (.inl h)

theorem get_or_create_cart_cases (db : DB) (u : ℕ) :
    ((get_or_create_cart db u).1 ∈ db.carts ∧
        (get_or_create_cart db u).1.status = CartStatus.active) ∨
      (get_or_create_cart db u).1.cid = db.next_cart_id := by
  cases hf : find_active_cart db u with
  | none =>
      right
      simp only [get_or_create_cart, hf]
  | some a =>
      left
      have hf2 : db.carts.find?
          (fun c => decide (c.owner = u ∧ c.status = CartStatus.active)) = some a := hf
      constructor
      · have h1 := List.mem_of_find?_eq_some hf2
        simpa only [get_or_create_cart, hf] using h1
      · have h2 : a.owner = u ∧ a.status = CartStatus.active := by
          have h3 := List.find?_some hf2
          simpa using h3
        simp only [get_or_create_cart, hf]
        exact h2.2

theorem mem_carts_replace {db : DB} {c : Cart} (c' : Cart) (h : c ∈ db.carts)
    (hne : ¬ c.cid = c'.cid) : c ∈ (replace_cart db c').carts := by
  unfold replace_cart
  have he : (fun x => if x.cid = c'.cid then c' else x) c = c := by
    simp [hne]
  exact he ▸ List.mem_map_of_mem _ h

/-! ## Claim theorems -/

/-- Claim C2: `reserve_stock` succeeds exactly when `stock >= quantity`,
decrementing by the quantity; on failure the variant is unchanged; and any
sequence of reserve/release operations with the non-negative quantities the
callers pass keeps `stock >= 0`. -/
theorem reserve_release_stock_spec (v : ProductVariant) (q : ℤ) :
    ((v.reserve_stock q).2 = true ↔ q ≤ v.stock) ∧
    ((v.reserve_stock q).2 = true → (v.reserve_stock q).1.stock = v.stock - q) ∧
    ((v.reserve_stock q).2 = false → (v.reserve_stock q).1 = v) ∧
    (∀ ops : List StockOp, 0 ≤ v.stock → (∀ op ∈ ops, 0 ≤ op.qty) →
      0 ≤ (v.run_stock_ops ops).stock) := by
  refine ⟨?_, ?_, ?_, ?_⟩
  · unfold ProductVariant.reserve_stock
    split <;> simp_all
  · unfold ProductVariant.reserve_stock
    split <;> simp_all
  · unfold ProductVariant.reserve_stock
    split <;> simp_all
  · intro ops
    induction ops generalizing v with
    | nil => intro h _; simpa [ProductVariant.run_stock_ops] using h
    | cons op rest ih =>
        intro h hops
        have h1 : 0 ≤ (v.apply_stock_op op).stock := by
          cases op with
          | reserve q' =>
              show 0 ≤ ((v.reserve_stock q').1).stock
              unfold ProductVariant.reserve_stock
              split
              · rename_i hle
                show 0 ≤ v.stock - q'
                omega
              · exact h
          | release q' =>
              have hq : 0 ≤ q' := by
                simpa [StockOp.qty] using hops _ (List.mem_cons_self _ _)
              show 0 ≤ v.stock + q'
              omega
        have h2 := ih (v.apply_stock_op op) h1 (fun o ho => hops o (by simp [ho]))
        simpa [ProductVariant.run_stock_ops, List.foldl] using h2

/-- Claim C2 witness: after reserving 3 of 5 and releasing 1, stock stays
non-negative. -/
theorem reserve_release_stock_spec_witness :
    0 ≤ (widget.run_stock_ops [StockOp.reserve 3, StockOp.release 1]).stock :=
  (reserve_release_stock_spec widget 3).2.2.2 [StockOp.reserve 3, StockOp.release 1]
    (by with_unfolding_all decide) (by with_unfolding_all decide)

/-- Claim C7 counterexample: with `maximum_discount` set to 0.00, the
truthiness guard `if self.maximum_discount and ...` skips the cap entirely:
a 50% coupon on a 10.00 subtotal returns 5.00, where the claim's
"capped first at maximum_discount when it is set" demands 0.00. -/
theorem calculate_discount_zero_cap_counterexample :
    zeroCapCoupon.maximum_discount = some 0 ∧
    zeroCapCoupon.calculate_discount 10 = 5 ∧
    min (cap_at_maximum zeroCapCoupon.maximum_discount
      (10 * (zeroCapCoupon.discount_value / 100))) 10 = 0 ∧
    ¬ zeroCapCoupon.calculate_discount 10 =
        min (cap_at_maximum zeroCapCoupon.maximum_discount
          (10 * (zeroCapCoupon.discount_value / 100))) 10 := by
  with_unfolding_all decide

/-- Claim C7 (amended): `calculate_discount` is the percentage/fixed base
capped at `maximum_discount` only when that column is set and non-zero (a
zero cap is skipped by the truthiness guard), then capped at the subtotal;
the result never exceeds the subtotal. -/
theorem calculate_discount_truthy_caps (c : Coupon) (subtotal : ℚ) :
    (c.discount_type = DiscountType.percentage →
      c.calculate_discount subtotal =
        min (cap_at_maximum_set c.maximum_discount
          (subtotal * (c.discount_value / 100))) subtotal) ∧
    (c.discount_type = DiscountType.fixed →
      c.calculate_discount subtotal =
        min (cap_at_maximum_set c.maximum_discount c.discount_value) subtotal) ∧
    c.calculate_discount subtotal ≤ subtotal := by
  have hfinal : ∀ x : ℚ, (if subtotal < x then subtotal else x) = min x subtotal := by
    intro x
    rcases lt_or_le subtotal x with h | h
    · rw [if_pos h, min_eq_right h.le]
    · rw [if_neg (not_lt.mpr h), min_eq_left h]
  refine ⟨?_, ?_, ?_⟩
  · intro hty
    cases hm : c.maximum_discount with
    | none =>
        simp only [Coupon.calculate_discount, hty, hm, cap_at_maximum_set]
        rw [hfinal]
    | some m =>
        simp only [Coupon.calculate_discount, hty, hm, cap_at_maximum_set]
        have hinner : (if m ≠ 0 ∧ m < subtotal * (c.discount_value / 100) then m
            else subtotal * (c.discount_value / 100)) =
            (if m = 0 then subtotal * (c.discount_value / 100)
              else min (subtotal * (c.discount_value / 100)) m) := by
          by_cases hm0 : m = 0
          · rw [if_neg (fun hh => hh.1 hm0), if_pos hm0]
          · by_cases hlt : m < subtotal * (c.discount_value / 100)
            · rw [if_pos ⟨hm0, hlt⟩, if_neg hm0, min_eq_right hlt.le]
            · rw [if_neg (fun hh => hlt hh.2), if_neg hm0,
                min_eq_left (not_lt.mp hlt)]
        rw [hinner, hfinal]
  · intro hty
    cases hm : c.maximum_discount with
    | none =>
        simp only [Coupon.calculate_discount, hty, hm, cap_at_maximum_set]
        rw [hfinal]
    | some m =>
        simp only [Coupon.calculate_discount, hty, hm, cap_at_maximum_set]
        have hinner : (if m ≠ 0 ∧ m < c.discount_value then m
            else c.discount_value) =
            (if m = 0 then c.discount_value else min c.discount_value m) := by
          by_cases hm0 : m = 0
          · rw [if_neg (fun hh => hh.1 hm0), if_pos hm0]
          · by_cases hlt : m < c.discount_value
            · rw [if_pos ⟨hm0, hlt⟩, if_neg hm0, min_eq_right hlt.le]
            · rw [if_neg (fun hh => hlt hh.2), if_neg hm0,
                min_eq_left (not_lt.mp hlt)]
        rw [hinner, hfinal]
  · simp only [Coupon.calculate_discount]
    split
    · exact le_refl subtotal
    · rename_i hnl; exact not_lt.mp hnl

/-- Claim C7 witness: SAVE10 (10%, cap 5.00) on a 100.00 subtotal computes
the capped formula concretely. -/
theorem calculate_discount_truthy_caps_witness :
    saveCoupon.calculate_discount 100 =
      min (cap_at_maximum_set saveCoupon.maximum_discount
        (100 * (saveCoupon.discount_value / 100))) 100 :=
  (calculate_discount_truthy_caps saveCoupon 100).1 rfl

/-- Claim C8 counterexample: on a zero cart total, SAVE20's minimum-amount
rule (20.00) is never checked — the source's `if self.minimum_amount and
cart_total and ...` guard treats `Decimal('0')` as false — so the coupon
validates cleanly with no accumulated error, where the claim demands a
minimum-amount error for every `cartTotal < minimum_amount`, zero
included. -/
theorem coupon_min_amount_zero_total_counterexample :
    minCoupon.minimum_amount = some 20 ∧ (0 : ℚ) < 20 ∧
    (minCoupon.is_valid (some 0) (some 7) 0 []).valid = true ∧
    (minCoupon.is_valid (some 0) (some 7) 0 []).errors = [] := by
  with_unfolding_all decide

set_option maxHeartbeats 1000000 in
/-- Claim C8 (amended): validation accumulates errors independently, and the
minimum-amount error for `minimum_amount = m` is reported exactly when `m`
and the cart total are both non-zero (Python truthiness) and the cart total
is below `m` — whatever the outcome of the other checks. -/
theorem coupon_min_amount_truthiness (c : Coupon) (t m : ℚ) (uid : Option ℕ)
    (now : ℤ) (usages : List (Option ℕ)) (hm : c.minimum_amount = some m) :
    CouponError.minimumAmount m ∈ (c.is_valid (some t) uid now usages).errors ↔
      (m ≠ 0 ∧ t ≠ 0 ∧ t < m) := by
  obtain ⟨code, dt, dv, ma, md, ul, ulpu, uc, vf, vu, act⟩ := c
  simp only [] at hm
  subst hm
  cases act <;> rcases vf with _ | vf <;> rcases vu with _ | vu <;>
    rcases ul with _ | ul <;> rcases uid with _ | u <;>
    simp only [Coupon.is_valid, List.mem_append, List.mem_singleton,
      List.not_mem_nil] <;>
    split_ifs <;> simp_all

/-- Claim C8 witness: with a 10.00 total against a 20.00 minimum the error is
accumulated. -/
theorem coupon_min_amount_truthiness_witness :
    CouponError.minimumAmount 20 ∈ (minCoupon.is_valid (some 10) (some 7) 0 []).errors :=
  (coupon_min_amount_truthiness minCoupon 10 20 (some 7) 0 [] rfl).mpr
    (by norm_num)

/-- Claim C1 counterexample: the checkout transaction on a cart of 3 Widgets
against a live stock of 2 (validation passed earlier against stale stock)
does roll back wholesale, but it surfaces the generic 'Failed to create
order', not an `InsufficientStock` naming the failing item; the loop had
simply driven the stock to -1 and the commit-time CHECK aborted. -/
theorem checkout_insufficient_stock_counterexample :
    checkout_transaction staleDB staleCart 10 11 "credit_card" =
      (.error .createFailed, staleDB) ∧
    surfaces_insufficient_stock
      (checkout_transaction staleDB staleCart 10 11 "credit_card").1 = false ∧
    reserve_items staleDB.variants staleCart.items =
      [{ drainedWidget with stock := -1 }] ∧
    staleCart.status = CartStatus.active := by
  with_unfolding_all decide

/-- Claim C1 (amended): every failing checkout transaction — in particular
one whose unconditional stock decrements drive some variant negative, the
only way a reservation shortfall can manifest — returns the transaction-start
state unchanged (no order visible, cart still active with its items, stock
untouched) together with the generic 'Failed to create order' error; no
`InsufficientStock` naming the failing item exists on this path. -/
theorem checkout_transaction_rollback (db : DB) (cart : Cart) (ship bill : ℕ)
    (pm : String) :
    (∀ e db', checkout_transaction db cart ship bill pm = (.error e, db') →
      db' = db ∧ e = .createFailed) ∧
    ((∃ v ∈ reserve_items db.variants cart.items, v.stock < 0) →
      checkout_transaction db cart ship bill pm = (.error .createFailed, db)) := by
  constructor
  · intro e db' h
    unfold checkout_transaction at h
    rcases hb : build_order_items db.variants cart.items with _ | oitems <;>
      simp only [hb] at h
    · injection h with h1 h2
      exact ⟨h2.symm, (Except.error.inj h1).symm⟩
    · split at h
      · injection h with h1 _
        exact Except.noConfusion h1
      · injection h with h1 h2
        exact ⟨h2.symm, (Except.error.inj h1).symm⟩
  · rintro ⟨v, hv, hneg⟩
    unfold checkout_transaction
    rcases hb : build_order_items db.variants cart.items with _ | oitems <;>
      simp only [hb]
    rw [if_neg]
    rintro ⟨hall, -⟩
    exact absurd (hall v hv) (by omega)

/-- Claim C1 witness: the rollback theorem applied to the concrete
stale-stock state. -/
theorem checkout_transaction_rollback_witness :
    checkout_transaction staleDB staleCart 10 11 "credit_card" =
      (.error .createFailed, staleDB) :=
  (checkout_transaction_rollback staleDB staleCart 10 11 "credit_card").2
    ⟨{ drainedWidget with stock := -1 }, by with_unfolding_all decide,
      by with_unfolding_all decide⟩

theorem calc_totals_cart_total_eq (cart : Cart) :
    (calc_totals_cart cart).total =
      (calc_totals_cart cart).subtotal + (calc_totals_cart cart).tax +
        (calc_totals_cart cart).shipping - (calc_totals_cart cart).discount := by
  unfold calc_totals_cart
  split
  · norm_num
  · rfl

theorem orders_commit (db : DB) (vs : List ProductVariant) (os : List Order)
    (c : Cart) :
    (replace_cart { db with variants := vs, orders := os } c).orders = os := rfl

theorem checkout_transaction_order_mem (db : DB) (cart : Cart) (ship bill : ℕ)
    (pm : String) (o : Order)
    (ho : o ∈ (checkout_transaction db cart ship bill pm).2.orders) :
    o ∈ db.orders ∨
      (o.total = o.subtotal + o.tax_amount + o.shipping_amount - o.discount_amount ∧
        0 ≤ o.total) := by
  unfold checkout_transaction at ho
  rcases hb : build_order_items db.variants cart.items with _ | oitems <;>
    simp only [hb] at ho
  · exact .inl ho
  · split at ho
    · rename_i hc
      rw [orders_commit] at ho
      rcases List.mem_append.mp ho with h | h
      · exact .inl h
      · have h2 := List.mem_singleton.mp h
        subst h2
        exact .inr ⟨calc_totals_cart_total_eq cart, hc.2⟩
    · exact .inl ho

/-- Claim C3: every order created by a checkout call satisfies
`total = subtotal + tax_amount + shipping_amount - discount_amount`
(the handler copies the computed totals verbatim) and `total >= 0` (the
`check_positive_total` CHECK constraint aborts the commit otherwise, so a
violating order never becomes visible). -/
theorem checkout_created_order_totals (db : DB) (user ship bill : ℕ)
    (pm : String) (o : Order)
    (ho : o ∈ (checkout db user ship bill pm).2.orders) :
    o ∈ db.orders ∨
      (o.total = o.subtotal + o.tax_amount + o.shipping_amount - o.discount_amount ∧
        0 ≤ o.total) := by
  simp only [checkout] at ho
  split at ho
  · rw [orders_get_or_create] at ho
    exact .inl ho
  · rcases hv : validate_items (get_or_create_cart db user).2.variants
        (get_or_create_cart db user).1.items with _ | ⟨errors, synced⟩ <;>
      simp only [hv] at ho
    · rw [orders_get_or_create] at ho
      exact .inl ho
    · split at ho
      · simp only [orders_replace_cart, orders_get_or_create] at ho
        exact .inl ho
      · split at ho
        · simp only [orders_replace_cart, orders_get_or_create] at ho
          exact .inl ho
        · have h := checkout_transaction_order_mem _ _ ship bill pm o ho
          rcases h with h | h
          · simp only [orders_replace_cart, orders_get_or_create] at h
            exact .inl h
          · exact .inr h

/-- Claim C3 witness: the order created by the concrete successful checkout
satisfies the total equation and non-negativity. -/
theorem checkout_created_order_totals_witness :
    happyOrder ∈ happyDB.orders ∨
      (happyOrder.total = happyOrder.subtotal + happyOrder.tax_amount +
          happyOrder.shipping_amount - happyOrder.discount_amount ∧
        0 ≤ happyOrder.total) :=
  checkout_created_order_totals happyDB 1 10 11 "credit_card" happyOrder
    (by with_unfolding_all decide)

/-- Claim C5 counterexample: the second of two back-to-back checkout calls on
the same user's cart fails with 'Cart is empty' — the converted cart is no
longer found by the active-cart lookup and a fresh empty cart is created in
its place — not with any cart-locked rejection. -/
theorem double_checkout_counterexample :
    secondCheckout.1 = .error .emptyCart ∧
    ¬ secondCheckout.1 = .error .cartLocked := by
  with_unfolding_all decide

/-- Claim C5 (amended): calling checkout twice in succession produces exactly
one order; the first call converts the cart, and the second call — finding no
active cart — creates a fresh empty one and fails with 'Cart is empty'. -/
theorem double_checkout_one_order :
    firstCheckout.1.isOk = true ∧
    firstCheckout.2.orders.length = 1 ∧
    secondCheckout.1 = .error .emptyCart ∧
    secondCheckout.2.orders.length = 1 ∧
    secondCheckout.2.carts.map Cart.status = [.converted, .active] := by
  with_unfolding_all decide

/-- Claim C9 counterexample: a below-threshold cart carrying an applied
free-shipping coupon is still charged the flat 9.99 rate — the shipping
computation never consults the coupon, so the spec's free-shipping override
(which demands 0 here) disagrees with the code. -/
theorem shipping_ignores_free_ship_counterexample :
    freeShipCart.meta = some { coupon_code := "FREESHIP", discount_amount := 0 } ∧
    freeShipCoupon.code = "FREESHIP" ∧
    freeShipCoupon.discount_type = DiscountType.free_shipping ∧
    spec_shipping freeShipCart.get_subtotal true = 0 ∧
    calc_shipping freeShipCart = 999 / 100 ∧
    ¬ calc_shipping freeShipCart = spec_shipping freeShipCart.get_subtotal true := by
  with_unfolding_all decide

/-- Claim C9 (amended): the shipping figure is exactly the step function of
the subtotal — 9.99 below 50.00, 0 at or above — independent of any applied
coupon state on the cart, and the totals computation uses that figure for
every non-empty cart. -/
theorem shipping_step_function (c : Cart) (m : Option AppliedCoupon) :
    calc_shipping { c with meta := m } = calc_shipping c ∧
    (c.get_subtotal < 50 → calc_shipping c = 999 / 100) ∧
    (50 ≤ c.get_subtotal → calc_shipping c = 0) ∧
    (c.is_empty = false → (calc_totals_cart c).shipping = calc_shipping c) := by
  refine ⟨rfl, ?_, ?_, ?_⟩
  · intro h
    unfold calc_shipping
    rw [if_neg (not_le.mpr h)]
  · intro h
    unfold calc_shipping
    rw [if_pos h]
  · intro h
    unfold calc_totals_cart
    rw [if_neg (show ¬ c.is_empty = true by simp [h])]

/-- Claim C9 witness: the concrete below-threshold cart pays 9.99 whatever
its coupon metadata says. -/
theorem shipping_step_function_witness :
    calc_shipping freeShipCart = 999 / 100 :=
  (shipping_step_function freeShipCart none).2.1 (by with_unfolding_all decide)

/-- Claim C10 (code bug): applying a perfectly valid coupon always fails —
`cart.metadata` is SQLAlchemy's `MetaData` registry, not a column, so the
store step raises and rolls back — nothing is ever persisted on the cart,
coupon removal likewise always fails, and the totals computation reads a
discount of 0 whatever applied-coupon state the cart carries.  The claim's
store-then-reuse-verbatim behaviour is the evident intent (the code builds
the metadata dictionary and the success payload for it) but never
executes. -/
theorem apply_coupon_never_stores :
    (saveCoupon.is_valid (some bigCart.get_subtotal) (some 1) 0 []).valid = true ∧
    apply_coupon bigCartDB 1 "SAVE10" 0 [] = (.error .applyCouponFailed, bigCartDB) ∧
    remove_coupon bigCartDB 1 = (.error .removeCouponFailed, bigCartDB) ∧
    (calc_totals_cart { bigCart with
        meta := some { coupon_code := "SAVE10", discount_amount := 10 } }).discount = 0 ∧
    (calc_totals_cart bigCart).discount = 0 := by
  with_unfolding_all decide

theorem sum_stocks_cons (v : ProductVariant) (vs : List ProductVariant) :
    sum_stocks (v :: vs) = v.stock + sum_stocks vs := by
  simp [sum_stocks]

theorem release_order_item_id (vs : List ProductVariant) (i : OrderItem)
    (h : ∀ v ∈ vs, ¬ v.vid = i.variant_id) : release_order_item vs i = vs := by
  induction vs with
  | nil => rfl
  | cons v rest ih =>
      unfold release_order_item at ih ⊢
      simp only [List.map_cons]
      rw [if_neg (h v (List.mem_cons_self _ _)),
        ih (fun x hx => h x (List.mem_cons_of_mem _ hx))]

theorem vids_release_order_item (vs : List ProductVariant) (i : OrderItem) :
    (release_order_item vs i).map ProductVariant.vid =
      vs.map ProductVariant.vid := by
  induction vs with
  | nil => rfl
  | cons v rest ih =>
      unfold release_order_item at ih ⊢
      simp only [List.map_cons]
      refine congrArg₂ List.cons ?_ ih
      split <;> rfl

theorem any_vid_release (vs : List ProductVariant) (i : OrderItem) (n : ℕ) :
    (release_order_item vs i).any (fun v => v.vid = n) =
      vs.any (fun v => v.vid = n) := by
  induction vs with
  | nil => rfl
  | cons v rest ih =>
      unfold release_order_item at ih ⊢
      simp only [List.map_cons, List.any_cons]
      rw [ih]
      congr 1
      split <;> rfl

theorem release_order_item_sum (vs : List ProductVariant) (i : OrderItem)
    (hnodup : (vs.map ProductVariant.vid).Nodup) :
    sum_stocks (release_order_item vs i) =
      sum_stocks vs +
        (if vs.any (fun v => v.vid = i.variant_id) then (i.quantity : ℤ) else 0) := by
  induction vs with
  | nil => simp [release_order_item, sum_stocks]
  | cons v rest ih =>
      rw [List.map_cons, List.nodup_cons] at hnodup
      obtain ⟨hni, hrest⟩ := hnodup
      by_cases hv : v.vid = i.variant_id
      · have hnomatch : ∀ x ∈ rest, ¬ x.vid = i.variant_id := by
          intro x hx hh
          exact hni (by rw [← hv] at hh; exact hh ▸ List.mem_map_of_mem _ hx)
        have h1 : release_order_item (v :: rest) i =
            { v with stock := v.stock + (i.quantity : ℤ) } :: rest := by
          unfold release_order_item
          simp only [List.map_cons]
          rw [if_pos hv]
          have h2 := release_order_item_id rest i hnomatch
          unfold release_order_item at h2
          rw [h2]
        rw [h1, sum_stocks_cons, sum_stocks_cons,
          if_pos (List.any_cons .. ▸ by simp [hv])]
        ring
      · have h1 : release_order_item (v :: rest) i =
            v :: release_order_item rest i := by
          unfold release_order_item
          simp only [List.map_cons]
          rw [if_neg hv]
        rw [h1, sum_stocks_cons, sum_stocks_cons, ih hrest]
        have h2 : (v :: rest).any (fun v => v.vid = i.variant_id) =
            rest.any (fun v => v.vid = i.variant_id) := by
          simp [List.any_cons, hv]
        rw [h2]
        ring

theorem released_total_release (vs : List ProductVariant) (i : OrderItem)
    (items : List OrderItem) :
    released_total (release_order_item vs i) items = released_total vs items := by
  unfold released_total
  simp only [any_vid_release]

theorem restore_stock_sum (vs : List ProductVariant) (items : List OrderItem)
    (hnodup : (vs.map ProductVariant.vid).Nodup) :
    sum_stocks (restore_stock vs items) = sum_stocks vs + released_total vs items := by
  induction items generalizing vs with
  | nil => simp [restore_stock, released_total]
  | cons i rest ih =>
      have hnodup2 : ((release_order_item vs i).map ProductVariant.vid).Nodup := by
        rw [vids_release_order_item]
        exact hnodup
      have h1 : restore_stock vs (i :: rest) =
          restore_stock (release_order_item vs i) rest := rfl
      rw [h1, ih _ hnodup2, release_order_item_sum vs i hnodup,
        released_total_release]
      have h2 : released_total vs (i :: rest) =
          (if vs.any (fun v => v.vid = i.variant_id) then (i.quantity : ℤ) else 0) +
            released_total vs rest := by
        unfold released_total
        simp [List.map_cons]
      rw [h2]
      ring

/-- Claim C6 counterexample: the admin status update accepts the transition
`delivered → pending`, which the spec's restricted transition set forbids:
the endpoint checks only membership in the status whitelist, never the
current status, and changes the order. -/
theorem admin_transition_unrestricted_counterexample :
    spec_allowed_transition OrderStatus.delivered OrderStatus.pending
        deliveredOrder.payment_status = false ∧
    deliveredOrder.status = OrderStatus.delivered ∧
    admin_update_order_status deliveredOrder [] OrderStatus.pending 0 =
      .ok ({ deliveredOrder with status := OrderStatus.pending }, []) := by
  with_unfolding_all decide

/-- Claim C6 (amended): the customer cancel endpoint permits cancellation
exactly from pending/confirmed, setting status cancelled and releasing the
inventory of every order item whose variant still exists; the admin refund
endpoint permits refund exactly from delivered/shipped with payment
captured, setting both statuses refunded and releasing inventory likewise;
but the admin status-update endpoint accepts every whitelisted status from
any current status, with no transition restriction and no
InvalidTransitionError. -/
theorem order_status_endpoint_guards :
    (∀ (o : Order) (vs : List ProductVariant),
        (cancel_order o vs).isOk = true ↔
          (o.status = OrderStatus.pending ∨ o.status = OrderStatus.confirmed)) ∧
    (∀ (o : Order) (vs : List ProductVariant),
        (admin_refund_order o vs).isOk = true ↔
          ((o.status = OrderStatus.delivered ∨ o.status = OrderStatus.shipped) ∧
            o.payment_status = PaymentStatus.captured)) ∧
    (∀ (o : Order) (vs : List ProductVariant) (s : OrderStatus) (now : ℤ),
        s ∈ admin_valid_statuses →
          ∃ o' vs', admin_update_order_status o vs s now = .ok (o', vs') ∧
            o'.status = s) ∧
    (∀ (o : Order) (vs : List ProductVariant) (o' : Order)
        (vs' : List ProductVariant),
        (vs.map ProductVariant.vid).Nodup →
        cancel_order o vs = .ok (o', vs') →
        o'.status = OrderStatus.cancelled ∧
          sum_stocks vs' = sum_stocks vs + released_total vs o.items) ∧
    (∀ (o : Order) (vs : List ProductVariant) (o' : Order)
        (vs' : List ProductVariant),
        (vs.map ProductVariant.vid).Nodup →
        admin_refund_order o vs = .ok (o', vs') →
        o'.status = OrderStatus.refunded ∧
          o'.payment_status = PaymentStatus.refunded ∧
          sum_stocks vs' = sum_stocks vs + released_total vs o.items) := by
  refine ⟨?_, ?_, ?_, ?_, ?_⟩
  · intro o vs
    unfold cancel_order
    split <;> rename_i hc <;>
      simp only [Order.can_be_cancelled, decide_eq_true_eq, not_not] at hc <;>
      simp [Except.isOk, Except.toBool, hc]
  · intro o vs
    unfold admin_refund_order
    split <;> rename_i hc <;>
      simp only [Order.can_be_refunded, decide_eq_true_eq, not_not] at hc <;>
      simp [Except.isOk, Except.toBool, hc]
  · intro o vs s now hs
    unfold admin_update_order_status
    rw [if_neg (not_not_intro hs)]
    split_ifs <;> exact ⟨_, _, rfl, rfl⟩
  · intro o vs o' vs' hnodup hok
    unfold cancel_order at hok
    split at hok
    · exact Except.noConfusion hok
    · injection hok with h1
      injection h1 with h2 h3
      constructor
      · rw [← h2]
      · rw [← h3]
        exact restore_stock_sum vs o.items hnodup
  · intro o vs o' vs' hnodup hok
    unfold admin_refund_order at hok
    split at hok
    · exact Except.noConfusion hok
    · injection hok with h1
      injection h1 with h2 h3
      refine ⟨?_, ?_, ?_⟩
      · rw [← h2]
      · rw [← h2]
      · rw [← h3]
        exact restore_stock_sum vs o.items hnodup

/-- Claim C6 witness: cancelling the concrete pending one-Widget order sets
status cancelled and restores the order's quantity to the total stock, and
refunding the concrete delivered captured order sets both statuses refunded
and restores stock likewise. -/
theorem order_status_endpoint_guards_witness :
    (({ pendingOrder with status := OrderStatus.cancelled } : Order).status =
        OrderStatus.cancelled ∧
      sum_stocks restoredVariants =
        sum_stocks [widget] + released_total [widget] pendingOrder.items) ∧
    (({ deliveredOrder with
          status := OrderStatus.refunded
          payment_status := PaymentStatus.refunded } : Order).status =
        OrderStatus.refunded ∧
      ({ deliveredOrder with
          status := OrderStatus.refunded
          payment_status := PaymentStatus.refunded } : Order).payment_status =
        PaymentStatus.refunded ∧
      sum_stocks refundRestoredVariants =
        sum_stocks [widget] + released_total [widget] deliveredOrder.items) :=
  ⟨order_status_endpoint_guards.2.2.2.1 pendingOrder [widget]
      { pendingOrder with status := OrderStatus.cancelled } restoredVariants
      (by with_unfolding_all decide) (by with_unfolding_all decide),
    order_status_endpoint_guards.2.2.2.2 deliveredOrder [widget]
      { deliveredOrder with
        status := OrderStatus.refunded
        payment_status := PaymentStatus.refunded } refundRestoredVariants
      (by with_unfolding_all decide) (by with_unfolding_all decide)⟩

/-- Claim C4 counterexample: the `Cart` model's `add_item` performs no status
check: called on a converted cart it increments the existing line from 2 to 4
and returns the mutated cart — nothing rejects, no CartLockedError exists. -/
theorem converted_cart_mutates_counterexample :
    convertedCart.status = CartStatus.converted ∧
    (convertedCart.add_item widget 2).items =
      [{ item_id := 7, variant_id := 1, quantity := 4, price := 10 }] ∧
    ¬ convertedCart.add_item widget 2 = convertedCart := by
  with_unfolding_all decide

/-- Claim C4 (amended): converted/expired carts are protected only at the
service layer — its lookup targets active carts exclusively and creates a
fresh one when none exists, so every service mutation (add, update, clear,
apply/remove coupon) leaves every non-active cart in the store untouched;
no operation rejects with a cart-locked error. -/
theorem service_mutations_preserve_locked_carts (db : DB)
    (user vid iid q : ℕ) (code : String) (now : ℤ) (usages : List (Option ℕ))
    (hnodup : (db.carts.map Cart.cid).Nodup)
    (hfresh : ∀ c ∈ db.carts, c.cid < db.next_cart_id) :
    ∀ c ∈ db.carts, ¬ c.status = CartStatus.active →
      c ∈ (add_to_cart db user vid q).2.carts ∧
      c ∈ (update_cart_item db user iid q).2.carts ∧
      c ∈ (clear_cart db user).2.carts ∧
      c ∈ (apply_coupon db user code now usages).2.carts ∧
      c ∈ (remove_coupon db user).2.carts := by
  intro c hc hstat
  have hmem1 : c ∈ (get_or_create_cart db user).2.carts :=
    mem_carts_get_or_create user hc
  have hcid : ¬ c.cid = (get_or_create_cart db user).1.cid := by
    rcases get_or_create_cart_cases db user with ⟨hmem, hact⟩ | hnew
    · intro he
      have heq : c = (get_or_create_cart db user).1 :=
        List.inj_on_of_nodup_map hnodup hc hmem he
      rw [heq] at hstat
      exact hstat hact
    · intro he
      rw [hnew] at he
      exact absurd he (Nat.ne_of_lt (hfresh c hc))
  refine ⟨?_, ?_, ?_, ?_, ?_⟩
  · unfold add_to_cart
    split
    · exact hc
    · split
      · exact hc
      · split
        · exact hc
        · split
          · split
            · exact hmem1
            · exact mem_carts_replace _ hmem1 hcid
          · exact mem_carts_replace _ hmem1 hcid
  · unfold update_cart_item
    split
    · exact hmem1
    · split
      · exact mem_carts_replace _ hmem1 hcid
      · split
        · exact hmem1
        · split
          · exact hmem1
          · exact mem_carts_replace _ hmem1 hcid
  · exact mem_carts_replace _ hmem1 hcid
  · unfold apply_coupon
    split
    · exact hmem1
    · split
      · exact hmem1
      · exact hmem1
  · exact hmem1

/-- Claim C4 witness: the concrete converted cart survives an add-to-cart
call (which lands in a freshly created active cart) unchanged. -/
theorem service_mutations_preserve_locked_carts_witness :
    convertedCart ∈ (add_to_cart convertedDB 2 1 1).2.carts :=
  ((service_mutations_preserve_locked_carts convertedDB 2 1 1 1 "X" 0 []
      (by with_unfolding_all decide) (by with_unfolding_all decide))
    convertedCart (by with_unfolding_all decide)
    (by with_unfolding_all decide)).1

end ECommerce
